import Mathlib

/-!
A shallow embedding of `src/dispatch/dispatch.py` (the DavidMertz/dispatch
repository): the annotation parser `annotation_info`, the default resolver
`first_satisfiable`, the registry state of the `Dispatcher` class produced by
`get_dispatcher`, the metaclass attribute lookup `DispatcherMeta.__getattr__`,
and the summary counts of `DispatcherMeta.__str__`.

Python's builtin `eval` (used by the parser on annotation strings) is host
functionality outside the repository; it is modelled as an abstract oracle
`String → EvalOutcome` passed to every definition that the source lets call
`eval`.  Concrete witnesses instantiate the oracle on the handful of strings
they mention (`evalDemo`).
-/

namespace DispatchModel

/-- Runtime Python types, as far as the examples in the repository need them. -/
inductive PyType
  | intT
  | floatT
  | complexT
  | strT
  | bytesT
  deriving DecidableEq

/-- A runtime Python value (the examples only dispatch on ints and strings). -/
inductive PyValue
  | int (n : Int)
  | str (s : String)
  deriving DecidableEq

/-- What the code stores in the `type` slot of an `AnnotationInfo`: `typing.Any`
(the fallbacks), a single nominal type, or a `UnionType` such as
`int | float | complex`. -/
inductive TypeConstraint
  | any
  | exact (t : PyType)
  | union (ts : List PyType)
  deriving DecidableEq

/-- `AnnotationInfo = namedtuple("AnnotationInfo", "type predicate")`. -/
structure AnnotationInfo where
  type : TypeConstraint
  predicate : String
  deriving DecidableEq

/-- Outcome of Python `eval` on an annotation substring, as the source
distinguishes the cases: the value is a `type`/`UnionType` (the
`isinstance(type_, (type, UnionType))` branch), some other value (carried as
its `str(...)` rendering, which is all the code keeps of it), or an exception
(caught by the `except (TypeError, NameError, Exception)` clause). -/
inductive EvalOutcome
  | typ (t : TypeConstraint)
  | nonType (shown : String)
  | exn
  deriving DecidableEq

/-- Python `str.strip()` with no argument: drop leading and trailing
whitespace. -/
def pyStrip (s : String) : String :=
  String.mk
    (((s.data.dropWhile Char.isWhitespace).reverse.dropWhile
        Char.isWhitespace).reverse)

/-- Split a character list at the first `'&'`, if any: the model of
`s.split("&", maxsplit=1)` producing two parts. -/
def splitCharsAmp : List Char → Option (List Char × List Char)
  | [] => none
  | c :: rest =>
    if c = '&' then some ([], rest)
    else
      match splitCharsAmp rest with
      | none => none
      | some (l, r) => some (c :: l, r)

/-- `s.split("&", maxsplit=1)` when it yields two parts (`none` when `s` holds
no `'&'` and the split returns the single-element list `[s]`). -/
def splitFirstAmp (s : String) : Option (String × String) :=
  (splitCharsAmp s.data).map (fun p => (String.mk p.1, String.mk p.2))

/-- The body of the `for arg in ...` loop of `annotation_info` for one
parameter: `ann` is `fn.__annotations__[arg]` when the key is present.  The
result is what the loop iteration stores into the `annotations` dict for this
parameter — `none` when the iteration stores nothing (which happens in the
source when the text before the first `'&'` evaluates to a non-type value
without raising: the inner `if` has no `else` and no exception is thrown). -/
def annotationInfoOne (evalFn : String → EvalOutcome) (ann : Option String) :
    Option AnnotationInfo :=
  match ann with
  | none => some ⟨.any, "True"⟩
  | some s =>
    match splitFirstAmp s with
    | some (left, right) =>
      match evalFn left with
      | .typ t => some ⟨t, pyStrip right⟩
      | .nonType _ => none
      | .exn => some ⟨.any, pyStrip s⟩
    | none =>
      match evalFn s with
      | .typ t => some ⟨t, "True"⟩
      | .nonType shown => some ⟨.any, shown⟩
      | .exn => some ⟨.any, pyStrip s⟩

/-- A Python function as `annotation_info` and the registry see it: its
`__name__`, its formal parameters `co_varnames[:co_argcount]`, its
`__annotations__` dict (all values are strings, the repository uses
`from __future__ import annotations`), and its callable behaviour. -/
structure Fn where
  name : String
  args : List String
  anns : List (String × String)
  body : List PyValue → PyValue

/-- Dict lookup in `fn.__annotations__`. -/
def annLookup : List (String × String) → String → Option String
  | [], _ => none
  | (k, v) :: rest, a => if k = a then some v else annLookup rest a

/-- `annotation_info(fn)`: one loop iteration per formal parameter, in order;
an iteration that assigns nothing leaves its parameter out of the dict. -/
def annotation_info (evalFn : String → EvalOutcome) (fn : Fn) :
    List (String × AnnotationInfo) :=
  fn.args.filterMap (fun arg =>
    (annotationInfoOne evalFn (annLookup fn.anns arg)).map (fun ai => (arg, ai)))

/-- `FunctionInfo = namedtuple("FunctionInfo", "fn annotation_info")`. -/
structure FunctionInfo where
  fn : Fn
  annotation_info : List (String × AnnotationInfo)

/-- `function_info(fn, annotation_info(fn))` as both call sites build it. -/
def function_info (evalFn : String → EvalOutcome) (fn : Fn) : FunctionInfo :=
  ⟨fn, annotation_info evalFn fn⟩

/-- `first_satisfiable(implementations)`: despite its docstring ("select the
first one that satisfies the predicates ... raise an exception"), the body is
`fn = implementations[0].fn  # XXX` — it returns the first registered
implementation unconditionally and never inspects constraints or arguments.
(`none` models the empty-list case, unreachable behind `__getattr__`'s guard.) -/
def first_satisfiable (implementations : List FunctionInfo) : Option Fn :=
  implementations.head?.map (fun fi => fi.fn)

/-- A resolver strategy, as stored in the `resolver` slot. -/
def Resolver : Type := List FunctionInfo → Option Fn

/-- The class attribute `resolver` of the `Dispatcher` class: either still the
`property` descriptor written in the class body, or a plain function that has
replaced it in the class dict. -/
inductive ResolverSlot
  | prop
  | fn (r : Resolver)

/-- `defaultdict(list)` append `funcs[name].append(implementation)`: keys keep
insertion order, an absent key is created holding the one-element list. -/
def appendFunc (funcs : List (String × List FunctionInfo)) (name : String)
    (fi : FunctionInfo) : List (String × List FunctionInfo) :=
  match funcs with
  | [] => [(name, [fi])]
  | (k, v) :: rest =>
    if k = name then (k, v ++ [fi]) :: rest
    else (k, v) :: appendFunc rest name fi

/-- `cls.funcs.get(name, [])`. -/
def lookupFuncs (funcs : List (String × List FunctionInfo)) (name : String) :
    List FunctionInfo :=
  match funcs with
  | [] => []
  | (k, v) :: rest => if k = name then v else lookupFuncs rest name

/-- The class-level mutable state of one manufactured `Dispatcher` class:
`funcs`, `to_bind`, and the `resolver` class attribute. -/
structure DispatcherState where
  funcs : List (String × List FunctionInfo)
  to_bind : Option String
  resolverSlot : ResolverSlot

/-- The freshly manufactured class of `get_dispatcher`: empty registry, no
pending name, `resolver` still the property descriptor. -/
def st0 : DispatcherState := ⟨[], none, .prop⟩

/-- Objects a registration step can return: a plain function, a `Dispatcher`
instance (carrying the instance-dict `resolver` entry, if the assignment in
`__new__` landed there), or the `Dispatcher` class object itself. -/
inductive PyObj
  | func (f : Fn)
  | dispInstance (instResolver : Option Resolver)
  | dispClass

/-- Whether a returned object is the original plain function object. -/
def PyObj.isFunc : PyObj → Bool
  | .func _ => true
  | _ => false

/-- Effect of `new.resolver = first_satisfiable` on the class: while the class
dict still holds the `property` (a data descriptor), its setter runs and
executes `self.__class__.resolver = resolver`, replacing the property in the
class dict with the plain function; once the slot holds a plain function (a
non-data descriptor), instance attribute assignment writes only the instance
dict and the class slot is untouched. -/
def touchResolver (st : DispatcherState) : DispatcherState :=
  match st.resolverSlot with
  | .prop => { st with resolverSlot := .fn first_satisfiable }
  | .fn _ => st

/-- What `new.resolver = first_satisfiable` leaves in the instance dict:
nothing when the property setter intercepted the assignment, the function
itself otherwise. -/
def instanceResolverAttr : ResolverSlot → Option Resolver
  | .prop => none
  | .fn _ => some first_satisfiable

/-- `Dispatcher.__new__(cls, fn=None, *, name="")`.  Returns the class state
after the call together with the call's outcome: `Except.error ()` models the
`ValueError` raised on misuse (note the resolver assignment has already
happened by then), `Except.ok` carries the returned instance.  When `fn` is
given, the passed `name` is overwritten by `fn.__name__` and the
implementation is appended under it; otherwise a non-empty `name` is stored in
`to_bind`. -/
def dispNew (evalFn : String → EvalOutcome) (st : DispatcherState)
    (fn? : Option Fn) (nm : String) : DispatcherState × Except Unit PyObj :=
  let inst := PyObj.dispInstance (instanceResolverAttr st.resolverSlot)
  let st' := touchResolver st
  match fn? with
  | some fn =>
    ({ st' with funcs := appendFunc st'.funcs fn.name (function_info evalFn fn) },
      .ok inst)
  | none =>
    if nm = "" then (st', .error ())
    else ({ st' with to_bind := some nm }, .ok inst)

/-- `Dispatcher.__call__(self, fn)`: bind under `to_bind or fn.__name__`,
append the implementation, clear `to_bind`, return the class object. -/
def dispCall (evalFn : String → EvalOutcome) (st : DispatcherState) (fn : Fn) :
    DispatcherState × PyObj :=
  let nm :=
    match st.to_bind with
    | some s => if s = "" then fn.name else s
    | none => fn.name
  ({ st with
      funcs := appendFunc st.funcs nm (function_info evalFn fn),
      to_bind := none },
    PyObj.dispClass)

/-- The raised errors of `DispatcherMeta.__getattr__`: the `AttributeError`
for an unbound name (NotBound), the `ValueError` for a falsy resolver result
(NoMatch) — both messages name the dispatch name, modelled by the carried
string — and the `TypeError` of calling the class-level property object
(only reachable before any instance was ever constructed). -/
inductive DispatchError
  | notBound (name : String)
  | noMatch (name : String)
  | typeError
  deriving DecidableEq

/-- `DispatcherMeta.__getattr__(cls, name)`: fetch the candidate list with
`cls.funcs.get(name, [])`, raise `AttributeError` when it is empty, call
`cls.resolver(implementations)`, raise `ValueError` when the result is falsy,
return the implementation. -/
def metaGetattr (st : DispatcherState) (name : String) :
    Except DispatchError Fn :=
  match lookupFuncs st.funcs name with
  | [] => .error (.notBound name)
  | impls =>
    match st.resolverSlot with
    | .prop => .error .typeError
    | .fn r =>
      match r impls with
      | none => .error (.noMatch name)
      | some fn => .ok fn

/-- `Disp.<name>(args)`: the attribute lookup through the metaclass followed
by calling whatever function object it returned on the actual arguments.
The arguments play no part in the lookup — `__getattr__` runs before the call
and never sees them. -/
def dispatchCall (st : DispatcherState) (name : String) (args : List PyValue) :
    Except DispatchError PyValue :=
  (metaGetattr st name).map (fun fn => fn.body args)

/-- `namespace_detritus` from the source. -/
def namespace_detritus : List String :=
  ["_ipython_canary_method_should_not_exist_", "_ipython_display_",
    "_repr_mimebundle_"]

/-- `sum(1 for f in cls.funcs if f not in namespace_detritus)` of
`DispatcherMeta.__str__`: iterate the dict's keys, count those not reserved. -/
def countNonDetritusNames : List (String × List FunctionInfo) → Nat
  | [] => 0
  | (k, _) :: rest =>
    (if namespace_detritus.contains k then 0 else 1) + countNonDetritusNames rest

/-- `sum(len(funcs) for funcs in cls.funcs.values())` of
`DispatcherMeta.__str__`: total implementations over every key. -/
def countImplementations : List (String × List FunctionInfo) → Nat
  | [] => 0
  | (_, v) :: rest => v.length + countImplementations rest

/-- The two counts `(n_names, n_impls)` that `DispatcherMeta.__str__` reports. -/
def dispatcherStrCounts (funcs : List (String × List FunctionInfo)) : Nat × Nat :=
  (countNonDetritusNames funcs, countImplementations funcs)

/-! ### The spec-side satisfaction test

The repository never implements constraint checking (the resolver body is a
stub), so the matching relation the spec describes is modelled from the spec
for use in refutations: §4.3, "a candidate matches iff, for every declared
parameter, the argument's runtime type satisfies the TypeConstraint ... AND
the Predicate, evaluated with the full argument binding available, yields
true".  Predicate evaluation (Python `eval` of the stored string) is modelled
on the concrete predicate strings the scenarios use. -/

/-- Runtime type of a value. -/
def pyTypeOf : PyValue → PyType
  | .int _ => .intT
  | .str _ => .strT

/-- Modelled from the spec: type satisfaction — trivially true for `Any`,
membership for a single type or a union (the scenarios need no subclass
walking). -/
def typeSatisfies : TypeConstraint → PyValue → Bool
  | .any, _ => true
  | .exact t, v => pyTypeOf v = t
  | .union ts, v => ts.contains (pyTypeOf v)

/-- Modelled from the spec: evaluation of the stored predicate string on the
parameter's value, for the predicate strings the scenarios use. -/
def predSatisfies : String → PyValue → Bool
  | "True", _ => true
  | "0<n<65536", .int n => decide (0 < n) && decide (n < 65536)
  | _, _ => false

/-- Modelled from the spec: a candidate matches the actual arguments iff every
declared parameter's type constraint and predicate are satisfied. -/
def specMatches (fi : FunctionInfo) (args : List PyValue) : Bool :=
  (fi.annotation_info.length = args.length) &&
    (fi.annotation_info.zip args).all
      (fun p => typeSatisfies p.1.2.type p.2 && predSatisfies p.1.2.predicate p.2)

/-! ### Concrete instances for the scenarios -/

/-- The `eval` oracle on the concrete annotation substrings the witnesses
mention; everything else raises. -/
def evalDemo : String → EvalOutcome
  | "int " => .typ (.exact .intT)
  | "int" => .typ (.exact .intT)
  | "int | float | complex" => .typ (.union [.intT, .floatT, .complexT])
  | "4 " => .nonType "4"
  | _ => .exn

/-- Scenario D's first implementation: `f(n: int & 0<n<65536)` returning
`"small"`. -/
def fSmall : Fn :=
  { name := "f", args := ["n"], anns := [("n", "int & 0<n<65536")],
    body := fun _ => .str "small" }

/-- Scenario D's second implementation: `g(n: int)` returning `"big"`. -/
def gBig : Fn :=
  { name := "g", args := ["n"], anns := [("n", "int")],
    body := fun _ => .str "big" }

/-- A callable with one parameter annotated `"4 & a > 3"`: the text before
the first `'&'` evaluates to the non-type value `4`. -/
def badFn : Fn :=
  { name := "h", args := ["a"], anns := [("a", "4 & a > 3")],
    body := fun _ => .int 0 }

/-- `Disp(name="classify")` on the fresh class: the one-shot binder. -/
def stA : DispatcherState := (dispNew evalDemo st0 none "classify").1

/-- ... then the binder applied to `fSmall`: `f` bound under `"classify"`. -/
def stB : DispatcherState := (dispCall evalDemo stA fSmall).1

/-- ... a second binder `Disp(name="classify")`. -/
def stC : DispatcherState := (dispNew evalDemo stB none "classify").1

/-- ... applied to `gBig`: Scenario D's registry, `f` then `g` under
`"classify"`. -/
def stD : DispatcherState := (dispCall evalDemo stC gBig).1

/-- An alternate resolver strategy that never selects a candidate. -/
def altResolver : Resolver := fun _ => none

/-- A `Dispatcher` class on which `altResolver` has been installed as the
class attribute `resolver` (the property was already replaced by an earlier
construction). -/
def stAlt : DispatcherState := ⟨[], none, .fn altResolver⟩

/-! ### Helper lemmas -/

/-- Appending under a key and then looking that key up sees the new record at
the end, after all previously registered ones. -/
theorem lookupFuncs_appendFunc_self (fs : List (String × List FunctionInfo))
    (k : String) (fi : FunctionInfo) :
    lookupFuncs (appendFunc fs k fi) k = lookupFuncs fs k ++ [fi] := by
  induction fs with
  | nil => simp [appendFunc, lookupFuncs]
  | cons kv rest ih =>
    obtain ⟨k', v⟩ := kv
    by_cases h : k' = k
    · subst h
      simp [appendFunc, lookupFuncs]
    · simp [appendFunc, lookupFuncs, h, ih]

/-- The resolver assignment in `__new__` never touches the registry. -/
theorem touchResolver_funcs (st : DispatcherState) :
    (touchResolver st).funcs = st.funcs := by
  cases h : st.resolverSlot <;> simp [touchResolver, h]

/-- The resolver assignment in `__new__` never touches the pending name. -/
theorem touchResolver_to_bind (st : DispatcherState) :
    (touchResolver st).to_bind = st.to_bind := by
  cases h : st.resolverSlot <;> simp [touchResolver, h]

/-! ### The claims -/

/-- C1: Scenario D evaluated on the code.  Both implementations are preserved
in the registry, and `classify(42)` does return `"small"`; but the default
resolver never inspects the arguments, so `classify(100000)` also returns
`"small"` — even though (per the spec's own matching relation) `fSmall` does
not match `100000` and `gBig` does.  The claim's "returns the earliest
registration-order candidate for which every constraint is satisfied" is
false on the code: `first_satisfiable` returns `implementations[0].fn`
unconditionally. -/
theorem C1_resolution_ignores_arguments :
    lookupFuncs stD.funcs "classify"
        = [function_info evalDemo fSmall, function_info evalDemo gBig]
    ∧ dispatchCall stD "classify" [PyValue.int 42]
        = Except.ok (PyValue.str "small")
    ∧ dispatchCall stD "classify" [PyValue.int 100000]
        = Except.ok (PyValue.str "small")
    ∧ specMatches (function_info evalDemo fSmall) [PyValue.int 100000] = false
    ∧ specMatches (function_info evalDemo gBig) [PyValue.int 100000] = true :=
  ⟨rfl, rfl, rfl, rfl, rfl⟩

/-- C2: with only `fSmall` registered under `"classify"`, the arguments
`(100000)` satisfy no candidate (per the spec's matching relation), yet the
code raises nothing and silently returns the non-matching candidate's result:
the `ValueError` ("NoMatch") branch of `__getattr__` is unreachable because
`first_satisfiable` never reports a failed match. -/
theorem C2_non_matching_candidate_returned :
    lookupFuncs stB.funcs "classify" = [function_info evalDemo fSmall]
    ∧ specMatches (function_info evalDemo fSmall) [PyValue.int 100000] = false
    ∧ dispatchCall stB "classify" [PyValue.int 100000]
        = Except.ok (PyValue.str "small") :=
  ⟨rfl, rfl, rfl⟩

/-- C3: the parser is not total.  For a parameter `a` annotated
`"4 & a > 3"`, the text before the first `'&'` evaluates (without raising) to
the non-type value `4`, the guarded assignment in the `'&'` branch is skipped,
and no `except` clause fires — so parameter `a` is omitted from the result
dict entirely, refuting "no parameter is omitted from the result". -/
theorem C3_parameter_omitted :
    badFn.args = ["a"]
    ∧ annLookup badFn.anns "a" = some "4 & a > 3"
    ∧ splitFirstAmp "4 & a > 3" = some ("4 ", " a > 3")
    ∧ evalDemo "4 " = EvalOutcome.nonType "4"
    ∧ annotation_info evalDemo badFn = [] :=
  ⟨rfl, rfl, rfl, rfl, rfl⟩

/-- C4: looking up a dispatch name with zero registered implementations
raises the `AttributeError` of `__getattr__` (the NotBound error), whose
message carries the dispatch name; no implementation is returned. -/
theorem C4_not_bound (st : DispatcherState) (name : String)
    (h : lookupFuncs st.funcs name = []) :
    metaGetattr st name = Except.error (DispatchError.notBound name) := by
  simp [metaGetattr, h]

/-- C4 witness: on the fresh class, `Disp.classify` raises NotBound naming
`classify`. -/
theorem C4_not_bound_witness :
    metaGetattr st0 "classify"
      = Except.error (DispatchError.notBound "classify") :=
  C4_not_bound st0 "classify" rfl

/-- C5: any annotation string containing `'&'` whose text before the first
`'&'` evaluates to a type or type-union `t` parses to `(t, predicate)` with
the predicate being the text after the first `'&'`, stripped of surrounding
whitespace. -/
theorem C5_amp_left_type (evalFn : String → EvalOutcome)
    (s left right : String) (t : TypeConstraint)
    (hsplit : splitFirstAmp s = some (left, right))
    (heval : evalFn left = EvalOutcome.typ t) :
    annotationInfoOne evalFn (some s) = some ⟨t, pyStrip right⟩ := by
  simp [annotationInfoOne, hsplit, heval]

/-- C5 witness (Scenario C): `"int & 3 <= a <= 17"` parses to
`(int, "3 <= a <= 17")`. -/
theorem C5_amp_left_type_witness :
    splitFirstAmp "int & 3 <= a <= 17" = some ("int ", " 3 <= a <= 17")
    ∧ evalDemo "int " = EvalOutcome.typ (TypeConstraint.exact PyType.intT)
    ∧ annotationInfoOne evalDemo (some "int & 3 <= a <= 17")
        = some ⟨TypeConstraint.exact PyType.intT, "3 <= a <= 17"⟩ :=
  ⟨rfl, rfl,
    (C5_amp_left_type evalDemo "int & 3 <= a <= 17" "int " " 3 <= a <= 17"
        (TypeConstraint.exact PyType.intT) rfl rfl).trans (by rfl)⟩

/-- C6: any annotation string with no `'&'` that evaluates to a type or a
union of types parses to that type constraint with the trivially-true
predicate `"True"`. -/
theorem C6_pure_type (evalFn : String → EvalOutcome) (s : String)
    (t : TypeConstraint) (hsplit : splitFirstAmp s = none)
    (heval : evalFn s = EvalOutcome.typ t) :
    annotationInfoOne evalFn (some s) = some ⟨t, "True"⟩ := by
  simp [annotationInfoOne, hsplit, heval]

/-- C6 witness (Scenario B): `"int | float | complex"` parses to
`(Union{int, float, complex}, "True")`. -/
theorem C6_pure_type_witness :
    splitFirstAmp "int | float | complex" = none
    ∧ annotationInfoOne evalDemo (some "int | float | complex")
        = some ⟨TypeConstraint.union [PyType.intT, PyType.floatT,
            PyType.complexT], "True"⟩ :=
  ⟨rfl,
    C6_pure_type evalDemo "int | float | complex"
      (TypeConstraint.union [PyType.intT, PyType.floatT, PyType.complexT])
      rfl rfl⟩

/-- C7: an explicit name given to `Dispatcher(name=...)` is stored in
`to_bind`, binds exactly the next callable registered through the returned
binder, and is then cleared, so a subsequent registration without an explicit
name is keyed by the callable's own `__name__`. -/
theorem C7_explicit_name_oneshot (evalFn : String → EvalOutcome)
    (st st1 st2 st3 : DispatcherState) (f g : Fn) (nm : String)
    (hnm : nm ≠ "")
    (h1 : st1 = (dispNew evalFn st none nm).1)
    (h2 : st2 = (dispCall evalFn st1 f).1)
    (h3 : st3 = (dispNew evalFn st2 (some g) "").1) :
    st1.to_bind = some nm
    ∧ lookupFuncs st2.funcs nm
        = lookupFuncs st1.funcs nm ++ [function_info evalFn f]
    ∧ st2.to_bind = none
    ∧ lookupFuncs st3.funcs g.name
        = lookupFuncs st2.funcs g.name ++ [function_info evalFn g] := by
  subst h1 h2 h3
  refine ⟨?_, ?_, ?_, ?_⟩
  · simp [dispNew, hnm]
  · simp [dispNew, dispCall, hnm, lookupFuncs_appendFunc_self]
  · simp [dispNew, dispCall, hnm]
  · simp [dispNew, dispCall, hnm, touchResolver_funcs,
      lookupFuncs_appendFunc_self]

/-- C7 witness: binder `Disp(name="classify")` binds `fSmall` under
`"classify"` and resets; registering `gBig` directly afterwards keys it by
`"g"`. -/
theorem C7_explicit_name_oneshot_witness :
    stA.to_bind = some "classify"
    ∧ lookupFuncs stB.funcs "classify"
        = lookupFuncs stA.funcs "classify" ++ [function_info evalDemo fSmall]
    ∧ stB.to_bind = none
    ∧ lookupFuncs ((dispNew evalDemo stB (some gBig) "").1).funcs gBig.name
        = lookupFuncs stB.funcs gBig.name ++ [function_info evalDemo gBig] :=
  C7_explicit_name_oneshot evalDemo st0 stA stB
    ((dispNew evalDemo stB (some gBig) "").1) fSmall gBig "classify"
    (by decide) rfl rfl rfl

/-- C8: the summary counts of `DispatcherMeta.__str__`: the name count is the
number of dict keys outside the reserved `namespace_detritus` list, while the
implementation count sums the registered implementations over all keys,
reserved names included. -/
theorem C8_str_counts (funcs : List (String × List FunctionInfo)) :
    (dispatcherStrCounts funcs).1
      = ((funcs.map Prod.fst).filter
          (fun k => !(namespace_detritus.contains k))).length
    ∧ (dispatcherStrCounts funcs).2
      = (funcs.map (fun kv => kv.2.length)).sum := by
  constructor
  · simp only [dispatcherStrCounts]
    induction funcs with
    | nil => rfl
    | cons kv rest ih =>
      obtain ⟨k, v⟩ := kv
      by_cases h : k ∈ namespace_detritus
      · simp [countNonDetritusNames, h, ih, List.filter_cons]
      · simp [countNonDetritusNames, h, ih, List.filter_cons, Nat.add_comm]
  · simp only [dispatcherStrCounts]
    induction funcs with
    | nil => rfl
    | cons kv rest ih => simp [countImplementations, ih]

/-- C9 counterexample: with the alternate strategy `altResolver` installed as
the class attribute `resolver`, constructing a new `Dispatcher` instance (a
registration) leaves the class-level slot holding `altResolver`, not
`first_satisfiable` — the two strategies demonstrably differ on a concrete
candidate list.  (The `resolver` property was replaced by a plain function at
the first-ever construction, so the assignment in `__new__` lands in the
instance dict only.) -/
theorem C9_counterexample :
    ((dispNew evalDemo stAlt (some gBig) "").1).resolverSlot
        = ResolverSlot.fn altResolver
    ∧ ¬ ((dispNew evalDemo stAlt (some gBig) "").1).resolverSlot
        = ResolverSlot.fn first_satisfiable
    ∧ altResolver [function_info evalDemo gBig] = none
    ∧ first_satisfiable [function_info evalDemo gBig] = some gBig := by
  refine ⟨rfl, ?_, rfl, rfl⟩
  intro h
  have h2 : ResolverSlot.fn altResolver
      = ResolverSlot.fn first_satisfiable := h
  have h' : altResolver = first_satisfiable := by injection h2
  have h3 := congrFun h' [function_info evalDemo gBig]
  simp [altResolver, first_satisfiable] at h3

/-- C9 amended: only a construction that still finds the `resolver` property
on the class (the first-ever construction) writes `first_satisfiable` into
the class-level slot; once the slot holds a plain function, every later
construction leaves the class-level slot exactly as it was, so an alternate
strategy installed on the class is preserved across registrations. -/
theorem C9_resolver_slot_after_new (evalFn : String → EvalOutcome)
    (st : DispatcherState) (fn? : Option Fn) (nm : String) :
    (st.resolverSlot = ResolverSlot.prop →
      ((dispNew evalFn st fn? nm).1).resolverSlot
        = ResolverSlot.fn first_satisfiable)
    ∧ ∀ r : Resolver, st.resolverSlot = ResolverSlot.fn r →
      ((dispNew evalFn st fn? nm).1).resolverSlot = ResolverSlot.fn r := by
  constructor
  · intro h
    cases fn? <;> by_cases hnm : nm = "" <;>
      simp [dispNew, touchResolver, h, hnm]
  · intro r h
    cases fn? <;> by_cases hnm : nm = "" <;>
      simp [dispNew, touchResolver, h, hnm]

/-- C10: direct decoration (`__new__` with a callable) returns a newly
constructed `Dispatcher` instance, and decoration through the one-shot
explicit-name binder (`__call__`) returns the `Dispatcher` class object; in
neither case is the returned object a plain function, so the decorated
identifier is never left bound to the original callable. -/
theorem C10_decoration_returns (evalFn : String → EvalOutcome)
    (st : DispatcherState) (f : Fn) :
    (dispNew evalFn st (some f) "").2
        = Except.ok (PyObj.dispInstance (instanceResolverAttr st.resolverSlot))
    ∧ PyObj.isFunc (PyObj.dispInstance (instanceResolverAttr st.resolverSlot))
        = false
    ∧ (dispCall evalFn st f).2 = PyObj.dispClass
    ∧ PyObj.isFunc PyObj.dispClass = false
    ∧ PyObj.isFunc (PyObj.func f) = true :=
  ⟨rfl, rfl, rfl, rfl, rfl⟩

end DispatchModel
